import Mathlib

/-
Verification development for the cell_wrappers repository
(src/lib.rs and the hand-expanded module src/expanded.rs).

The repository has two engines:
  * a group expander (the def_cells macro) that turns a declarative
    description (implementation kind x access category) into a module of
    Marker/Owner/Cell types plus a uniform accessor API;
  * a scope-access compiler (the c_scp macro) that turns an
    (owner-source, binding-pattern) pair into a scoped code block.

Both engines are purely syntactic tree-shaped expansions, so they are
embedded here as total functions on small inductive types, transcribed
arm by arm from the macro rules in src/lib.rs.
-/

namespace CellWrappers

/- Core enumerations, lib.rs 907-927. -/

inductive CellImpl
| T
| TL
deriving DecidableEq, Repr

inductive CellAccessLevels
| Uniform
| Private
| Public
deriving DecidableEq, Repr

inductive CellRoles
| Marker
| Owner
| Cell
deriving DecidableEq, Repr

/- The trait lattice, lib.rs 929-1126.  Only the traits that the code
ever implements for a generated type are listed.  Default method bodies
live on the eight base traits (IsTImpl, IsTLImpl, the three IsGT*Access
traits, and the three IsGT role traits); the composite traits declare no
methods of their own. -/

inductive CellTrait
| IsTImpl
| IsTLImpl
| IsGTPvtAccess
| IsGTUniAccess
| IsGTPubAccess
| IsTPvtAccess
| IsTLPvtAccess
| IsTUniAccess
| IsTLUniAccess
| IsTPubAccess
| IsTLPubAccess
| IsGTMarker
| IsTMarker
| IsTLMarker
| IsTUniMarker
| IsTPubMarker
| IsTPvtMarker
| IsTLUniMarker
| IsTLPubMarker
| IsTLPvtMarker
| IsGTOwner
| IsTOwner
| IsTLOwner
| IsTUniOwner
| IsTPubOwner
| IsTPvtOwner
| IsTLUniOwner
| IsTLPubOwner
| IsTLPvtOwner
| IsGTCell
| IsTCell
| IsTLCell
| IsTUniCell
| IsTPubCell
| IsTPvtCell
| IsTLUniCell
| IsTLPubCell
| IsTLPvtCell
deriving DecidableEq, Repr

/- Default bodies of the static method get_cell_impl (lib.rs 933-936 and
943-946): only IsTImpl and IsTLImpl declare it. -/
def implOfTrait : CellTrait → Option CellImpl
| CellTrait.IsTImpl => some CellImpl.T
| CellTrait.IsTLImpl => some CellImpl.TL
| _ => none

/- Default bodies of the instance method get_self_cell_impl
(lib.rs 937-940 and 947-950). -/
def selfImplOfTrait : CellTrait → Option CellImpl
| CellTrait.IsTImpl => some CellImpl.T
| CellTrait.IsTLImpl => some CellImpl.TL
| _ => none

/- Default bodies of get_access_level (lib.rs 966-969, 1002-1005,
1038-1041). -/
def accessLevelOfTrait : CellTrait → Option CellAccessLevels
| CellTrait.IsGTPvtAccess => some CellAccessLevels.Private
| CellTrait.IsGTUniAccess => some CellAccessLevels.Uniform
| CellTrait.IsGTPubAccess => some CellAccessLevels.Public
| _ => none

/- Default bodies of get_self_access_level (lib.rs 982-985, 1018-1021,
1054-1057). -/
def selfAccessLevelOfTrait : CellTrait → Option CellAccessLevels
| CellTrait.IsGTPvtAccess => some CellAccessLevels.Private
| CellTrait.IsGTUniAccess => some CellAccessLevels.Uniform
| CellTrait.IsGTPubAccess => some CellAccessLevels.Public
| _ => none

/- Default bodies of get_cell_role (lib.rs 1062-1066, 1084-1088,
1106-1110). -/
def roleOfTrait : CellTrait → Option CellRoles
| CellTrait.IsGTMarker => some CellRoles.Marker
| CellTrait.IsGTOwner => some CellRoles.Owner
| CellTrait.IsGTCell => some CellRoles.Cell
| _ => none

/- Default bodies of get_self_cell_role (lib.rs 1067-1070, 1089-1092,
1111-1114). -/
def selfRoleOfTrait : CellTrait → Option CellRoles
| CellTrait.IsGTMarker => some CellRoles.Marker
| CellTrait.IsGTOwner => some CellRoles.Owner
| CellTrait.IsGTCell => some CellRoles.Cell
| _ => none

/- Blanket impls on the underlying qcell types, lib.rs 1147-1161: every
TCell/TLCell gets the impl-kind trait, IsGTCell and the kind-specific
cell trait; every TCellOwner/TLCellOwner likewise for owners. -/
def qcellCellBlanket : CellImpl → List CellTrait
| CellImpl.T => [CellTrait.IsTImpl, CellTrait.IsGTCell, CellTrait.IsTCell]
| CellImpl.TL => [CellTrait.IsTLImpl, CellTrait.IsGTCell, CellTrait.IsTLCell]

def qcellOwnerBlanket : CellImpl → List CellTrait
| CellImpl.T => [CellTrait.IsTImpl, CellTrait.IsGTOwner, CellTrait.IsTOwner]
| CellImpl.TL => [CellTrait.IsTLImpl, CellTrait.IsGTOwner, CellTrait.IsTLOwner]

/- The four group categories of the def_cells macro (UniGrp, AccGrp,
PubGrp, PvtGrp suffixes of the declaration keywords). -/
inductive GrpCategory
| UniGrp
| AccGrp
| PubGrp
| PvtGrp
deriving DecidableEq, Repr

/- The fixed failure messages, lib.rs 1687-1733. -/

def pvt_owner_unavailable_msg : String :=
  "Tried to request a private owner from a mod that cannot provide one."

def uni_owner_unavailable_msg : String :=
  "Tried to request a uniform owner from a mod that cannot provide one."

def pub_owner_unavailable_msg : String :=
  "Tried to request a public owner from a mod that cannot provide one."

def pvt_cell_unavailable_msg : String :=
  "Tried to request a private cell from a mod that cannot provide one."

def uni_cell_unavailable_msg : String :=
  "Tried to request a uniform cell from a mod that cannot provide one."

def pub_cell_unavailable_msg : String :=
  "Tried to request a public cell from a mod that cannot provide one."

/- Outcome of calling one of the six new_* accessor functions of an
expanded group module: either the success path (a fresh owner or cell of
the matching subcategory) or a deterministic hard failure carrying the
message it is raised with. -/
inductive AccessorOutcome
| success
| panics (msg : String)
deriving DecidableEq, Repr

/- The accessor API emitted into every expanded group module:
the three capability queries and the six guarded constructors. -/
structure GroupApi where
  has_private_access : Bool
  has_uniform_access : Bool
  has_public_access : Bool
  new_private_owner : AccessorOutcome
  new_uniform_owner : AccessorOutcome
  new_public_owner : AccessorOutcome
  new_private_cell : AccessorOutcome
  new_uniform_cell : AccessorOutcome
  new_public_cell : AccessorOutcome
deriving DecidableEq, Repr

/- def_cells @for_uniform_group arm, lib.rs 1784-1842.  Note that
new_private_cell raises uni_cell_unavailable_msg (lib.rs 1829). -/
def for_uniform_group_api : GroupApi :=
  { has_private_access := false
    has_uniform_access := true
    has_public_access := false
    new_private_owner := AccessorOutcome.panics pvt_owner_unavailable_msg
    new_uniform_owner := AccessorOutcome.success
    new_public_owner := AccessorOutcome.panics pub_owner_unavailable_msg
    new_private_cell := AccessorOutcome.panics uni_cell_unavailable_msg
    new_uniform_cell := AccessorOutcome.success
    new_public_cell := AccessorOutcome.panics pub_cell_unavailable_msg }

/- def_cells @for_access_group arm, lib.rs 1926-1984. -/
def for_access_group_api : GroupApi :=
  { has_private_access := true
    has_uniform_access := false
    has_public_access := true
    new_private_owner := AccessorOutcome.success
    new_uniform_owner := AccessorOutcome.panics uni_owner_unavailable_msg
    new_public_owner := AccessorOutcome.success
    new_private_cell := AccessorOutcome.success
    new_uniform_cell := AccessorOutcome.panics uni_cell_unavailable_msg
    new_public_cell := AccessorOutcome.success }

/- def_cells @for_public_group arm, lib.rs 2033-2092. -/
def for_public_group_api : GroupApi :=
  { has_private_access := false
    has_uniform_access := false
    has_public_access := true
    new_private_owner := AccessorOutcome.panics pvt_owner_unavailable_msg
    new_uniform_owner := AccessorOutcome.panics uni_owner_unavailable_msg
    new_public_owner := AccessorOutcome.success
    new_private_cell := AccessorOutcome.panics pvt_cell_unavailable_msg
    new_uniform_cell := AccessorOutcome.panics uni_cell_unavailable_msg
    new_public_cell := AccessorOutcome.success }

/- def_cells @for_private_group arm, lib.rs 2141-2199. -/
def for_private_group_api : GroupApi :=
  { has_private_access := true
    has_uniform_access := false
    has_public_access := false
    new_private_owner := AccessorOutcome.success
    new_uniform_owner := AccessorOutcome.panics uni_owner_unavailable_msg
    new_public_owner := AccessorOutcome.panics pub_owner_unavailable_msg
    new_private_cell := AccessorOutcome.success
    new_uniform_cell := AccessorOutcome.panics uni_cell_unavailable_msg
    new_public_cell := AccessorOutcome.panics pub_cell_unavailable_msg }

/- The eight @line dispatch arms of def_cells, lib.rs 2315-2450: each of
the 2 x 4 declaration keywords selects one of the four @for arms. The
accessor API does not read the trait argument tuple, so it depends only
on the arm selected. -/
def def_cells_line_api : CellImpl → GrpCategory → GroupApi
| CellImpl.T, GrpCategory.UniGrp => for_uniform_group_api
| CellImpl.T, GrpCategory.AccGrp => for_access_group_api
| CellImpl.T, GrpCategory.PubGrp => for_public_group_api
| CellImpl.T, GrpCategory.PvtGrp => for_private_group_api
| CellImpl.TL, GrpCategory.UniGrp => for_uniform_group_api
| CellImpl.TL, GrpCategory.AccGrp => for_access_group_api
| CellImpl.TL, GrpCategory.PubGrp => for_public_group_api
| CellImpl.TL, GrpCategory.PvtGrp => for_private_group_api

/- Is an accessor outcome a hard failure (as opposed to a silent
success or no-op)? -/
def isHardFailure : AccessorOutcome → Bool
| AccessorOutcome.success => false
| AccessorOutcome.panics _ => true

/- Every accessor whose level the module does not support is a hard
failure, and every supported accessor succeeds. -/
def unsupportedAccessorsAllFail (api : GroupApi) : Bool :=
  (api.has_private_access
    || (isHardFailure api.new_private_owner && isHardFailure api.new_private_cell))
  && (api.has_uniform_access
    || (isHardFailure api.new_uniform_owner && isHardFailure api.new_uniform_cell))
  && (api.has_public_access
    || (isHardFailure api.new_public_owner && isHardFailure api.new_public_cell))

/- The tuple of twelve trait arguments each @line arm of def_cells
passes down to its @for arm (lib.rs 2315-2450).  cell_type and
owner_type name the qcell aliases (TCell/TCellOwner vs TLCell/
TLCellOwner), recorded here by their implementation kind. -/
structure GrpTraitArgs where
  cell_type : CellImpl
  owner_type : CellImpl
  marker_pvt_type : CellTrait
  marker_pub_type : CellTrait
  owner_pvt_type : CellTrait
  owner_pub_type : CellTrait
  cell_pvt_type : CellTrait
  cell_pub_type : CellTrait
  impl_type : CellTrait
  marker_impl_type : CellTrait
  pvt_impl_type : CellTrait
  pub_impl_type : CellTrait
deriving DecidableEq, Repr

/- The argument tuples of the eight @line arms, transcribed from
lib.rs 2315-2450 in source order of the fields. -/
def def_cells_line_args : CellImpl → GrpCategory → GrpTraitArgs
| CellImpl.T, GrpCategory.UniGrp =>
  ⟨CellImpl.T, CellImpl.T,
   CellTrait.IsTUniMarker, CellTrait.IsTUniMarker,
   CellTrait.IsTUniOwner, CellTrait.IsTUniOwner,
   CellTrait.IsTUniCell, CellTrait.IsTUniCell,
   CellTrait.IsTImpl, CellTrait.IsTMarker,
   CellTrait.IsTUniAccess, CellTrait.IsTUniAccess⟩
| CellImpl.T, GrpCategory.AccGrp =>
  ⟨CellImpl.T, CellImpl.T,
   CellTrait.IsTPvtMarker, CellTrait.IsTPubMarker,
   CellTrait.IsTPvtOwner, CellTrait.IsTPubOwner,
   CellTrait.IsTPvtCell, CellTrait.IsTPubCell,
   CellTrait.IsTImpl, CellTrait.IsTMarker,
   CellTrait.IsTPvtAccess, CellTrait.IsTPubAccess⟩
| CellImpl.T, GrpCategory.PubGrp =>
  ⟨CellImpl.T, CellImpl.T,
   CellTrait.IsTPubMarker, CellTrait.IsTPubMarker,
   CellTrait.IsTPubOwner, CellTrait.IsTPubOwner,
   CellTrait.IsTPubCell, CellTrait.IsTPubCell,
   CellTrait.IsTImpl, CellTrait.IsTMarker,
   CellTrait.IsTPubAccess, CellTrait.IsTPubAccess⟩
| CellImpl.T, GrpCategory.PvtGrp =>
  ⟨CellImpl.T, CellImpl.T,
   CellTrait.IsTPvtMarker, CellTrait.IsTPvtMarker,
   CellTrait.IsTPvtOwner, CellTrait.IsTPvtOwner,
   CellTrait.IsTPvtCell, CellTrait.IsTPvtCell,
   CellTrait.IsTImpl, CellTrait.IsTMarker,
   CellTrait.IsTPvtAccess, CellTrait.IsTPvtAccess⟩
| CellImpl.TL, GrpCategory.UniGrp =>
  ⟨CellImpl.TL, CellImpl.TL,
   CellTrait.IsTLUniMarker, CellTrait.IsTLUniMarker,
   CellTrait.IsTLUniOwner, CellTrait.IsTLUniOwner,
   CellTrait.IsTLUniCell, CellTrait.IsTLUniCell,
   CellTrait.IsTLImpl, CellTrait.IsTLMarker,
   CellTrait.IsTLUniAccess, CellTrait.IsTLUniAccess⟩
| CellImpl.TL, GrpCategory.AccGrp =>
  ⟨CellImpl.TL, CellImpl.TL,
   CellTrait.IsTLPvtMarker, CellTrait.IsTLPubMarker,
   CellTrait.IsTLPvtOwner, CellTrait.IsTLPubOwner,
   CellTrait.IsTLPvtCell, CellTrait.IsTLPubCell,
   CellTrait.IsTLImpl, CellTrait.IsTLMarker,
   CellTrait.IsTLPvtAccess, CellTrait.IsTLPubAccess⟩
| CellImpl.TL, GrpCategory.PubGrp =>
  ⟨CellImpl.TL, CellImpl.TL,
   CellTrait.IsTLPubMarker, CellTrait.IsTLPubMarker,
   CellTrait.IsTLPubOwner, CellTrait.IsTLPubOwner,
   CellTrait.IsTLPubCell, CellTrait.IsTLPubCell,
   CellTrait.IsTLImpl, CellTrait.IsTLMarker,
   CellTrait.IsTLPubAccess, CellTrait.IsTLPubAccess⟩
| CellImpl.TL, GrpCategory.PvtGrp =>
  ⟨CellImpl.TL, CellImpl.TL,
   CellTrait.IsTLPvtMarker, CellTrait.IsTLPvtMarker,
   CellTrait.IsTLPvtOwner, CellTrait.IsTLPvtOwner,
   CellTrait.IsTLPvtCell, CellTrait.IsTLPvtCell,
   CellTrait.IsTLImpl, CellTrait.IsTLMarker,
   CellTrait.IsTLPvtAccess, CellTrait.IsTLPvtAccess⟩

/- One generated Marker/Owner/Cell type: the declaration data (the
implementation kind and the access level of the triple it was declared
in, and which role it plays) together with the full list of traits the
expansion implements for it (explicit impls plus the qcell blanket
impls for owners and cells). -/
structure GeneratedType where
  kind : CellImpl
  level : CellAccessLevels
  role : CellRoles
  traits : List CellTrait
deriving DecidableEq, Repr

/- The types emitted by @for_uniform_group (lib.rs 1748-1782):
UniMarker, UniCell, UniOwner with their explicit trait impls, plus the
blanket impls the underlying qcell aliases already carry. -/
def for_uniform_group_types (k : CellImpl) (a : GrpTraitArgs) : List GeneratedType :=
  [⟨k, CellAccessLevels.Uniform, CellRoles.Marker,
     [CellTrait.IsGTUniAccess, CellTrait.IsGTMarker, a.impl_type,
      a.pvt_impl_type, a.marker_impl_type, a.marker_pvt_type]⟩,
   ⟨k, CellAccessLevels.Uniform, CellRoles.Cell,
     [CellTrait.IsGTUniAccess, a.pvt_impl_type, a.cell_pvt_type]
       ++ qcellCellBlanket a.cell_type⟩,
   ⟨k, CellAccessLevels.Uniform, CellRoles.Owner,
     [CellTrait.IsGTUniAccess, a.pvt_impl_type, a.owner_pvt_type]
       ++ qcellOwnerBlanket a.owner_type⟩]

/- The types emitted by @for_access_group (lib.rs 1856-1924): the
public triple first, then the private triple. -/
def for_access_group_types (k : CellImpl) (a : GrpTraitArgs) : List GeneratedType :=
  [⟨k, CellAccessLevels.Public, CellRoles.Marker,
     [CellTrait.IsGTPubAccess, CellTrait.IsGTMarker, a.impl_type,
      a.pub_impl_type, a.marker_impl_type, a.marker_pub_type]⟩,
   ⟨k, CellAccessLevels.Public, CellRoles.Cell,
     [CellTrait.IsGTPubAccess, a.pub_impl_type, a.cell_pub_type]
       ++ qcellCellBlanket a.cell_type⟩,
   ⟨k, CellAccessLevels.Public, CellRoles.Owner,
     [CellTrait.IsGTPubAccess, a.pub_impl_type, a.owner_pub_type]
       ++ qcellOwnerBlanket a.owner_type⟩,
   ⟨k, CellAccessLevels.Private, CellRoles.Marker,
     [CellTrait.IsGTPvtAccess, CellTrait.IsGTMarker, a.impl_type,
      a.pvt_impl_type, a.marker_impl_type, a.marker_pvt_type]⟩,
   ⟨k, CellAccessLevels.Private, CellRoles.Cell,
     [CellTrait.IsGTPvtAccess, a.pvt_impl_type, a.cell_pvt_type]
       ++ qcellCellBlanket a.cell_type⟩,
   ⟨k, CellAccessLevels.Private, CellRoles.Owner,
     [CellTrait.IsGTPvtAccess, a.pvt_impl_type, a.owner_pvt_type]
       ++ qcellOwnerBlanket a.owner_type⟩]

/- The types emitted by @for_public_group (lib.rs 1998-2031). -/
def for_public_group_types (k : CellImpl) (a : GrpTraitArgs) : List GeneratedType :=
  [⟨k, CellAccessLevels.Public, CellRoles.Marker,
     [CellTrait.IsGTPubAccess, CellTrait.IsGTMarker, a.impl_type,
      a.pub_impl_type, a.marker_impl_type, a.marker_pub_type]⟩,
   ⟨k, CellAccessLevels.Public, CellRoles.Cell,
     [CellTrait.IsGTPubAccess, a.pub_impl_type, a.cell_pub_type]
       ++ qcellCellBlanket a.cell_type⟩,
   ⟨k, CellAccessLevels.Public, CellRoles.Owner,
     [CellTrait.IsGTPubAccess, a.pub_impl_type, a.owner_pub_type]
       ++ qcellOwnerBlanket a.owner_type⟩]

/- The types emitted by @for_private_group (lib.rs 2106-2139). -/
def for_private_group_types (k : CellImpl) (a : GrpTraitArgs) : List GeneratedType :=
  [⟨k, CellAccessLevels.Private, CellRoles.Marker,
     [CellTrait.IsGTPvtAccess, CellTrait.IsGTMarker, a.impl_type,
      a.pvt_impl_type, a.marker_impl_type, a.marker_pvt_type]⟩,
   ⟨k, CellAccessLevels.Private, CellRoles.Cell,
     [CellTrait.IsGTPvtAccess, a.pvt_impl_type, a.cell_pvt_type]
       ++ qcellCellBlanket a.cell_type⟩,
   ⟨k, CellAccessLevels.Private, CellRoles.Owner,
     [CellTrait.IsGTPvtAccess, a.pvt_impl_type, a.owner_pvt_type]
       ++ qcellOwnerBlanket a.owner_type⟩]

/- The full set of types a def_cells declaration with the given kind
and category expands to, via the @line dispatch. -/
def def_cells_line_types : CellImpl → GrpCategory → List GeneratedType
| k, GrpCategory.UniGrp => for_uniform_group_types k (def_cells_line_args k GrpCategory.UniGrp)
| k, GrpCategory.AccGrp => for_access_group_types k (def_cells_line_args k GrpCategory.AccGrp)
| k, GrpCategory.PubGrp => for_public_group_types k (def_cells_line_args k GrpCategory.PubGrp)
| k, GrpCategory.PvtGrp => for_private_group_types k (def_cells_line_args k GrpCategory.PvtGrp)

/- Static accessor resolution on a generated type: the list of values
its implemented traits provide for the given static method.  A
singleton list means the method resolves unambiguously to that value. -/
def get_cell_impl_values (g : GeneratedType) : List CellImpl :=
  g.traits.filterMap implOfTrait

def get_self_cell_impl_values (g : GeneratedType) : List CellImpl :=
  g.traits.filterMap selfImplOfTrait

def get_cell_role_values (g : GeneratedType) : List CellRoles :=
  g.traits.filterMap roleOfTrait

def get_self_cell_role_values (g : GeneratedType) : List CellRoles :=
  g.traits.filterMap selfRoleOfTrait

def get_access_level_values (g : GeneratedType) : List CellAccessLevels :=
  g.traits.filterMap accessLevelOfTrait

def get_self_access_level_values (g : GeneratedType) : List CellAccessLevels :=
  g.traits.filterMap selfAccessLevelOfTrait

/- A generated type is introspection-consistent when each of the three
static accessors resolves uniquely to the declared datum and each
instance-level accessor agrees with its static counterpart. -/
def introspectionConsistent (g : GeneratedType) : Bool :=
  get_cell_impl_values g == [g.kind]
  && get_cell_role_values g == [g.role]
  && get_access_level_values g == [g.level]
  && get_self_cell_impl_values g == get_cell_impl_values g
  && get_self_cell_role_values g == get_cell_role_values g
  && get_self_access_level_values g == get_access_level_values g

/- Families-style declarations, lib.rs 1216-1683.  Each @finish_build
arm is a fixed trait list; owner and cell aliases additionally carry
the qcell blanket impls. -/

def new_t_marker_type_traits : List CellTrait :=
  [CellTrait.IsGTMarker, CellTrait.IsTMarker, CellTrait.IsTImpl,
   CellTrait.IsGTUniAccess, CellTrait.IsTUniAccess, CellTrait.IsTUniMarker]

def new_tl_marker_type_traits : List CellTrait :=
  [CellTrait.IsGTMarker, CellTrait.IsTLMarker, CellTrait.IsTLImpl,
   CellTrait.IsGTUniAccess, CellTrait.IsTLUniAccess, CellTrait.IsTLUniMarker]

def new_t_owner_type_traits : List CellTrait :=
  [CellTrait.IsGTUniAccess, CellTrait.IsTUniAccess, CellTrait.IsTUniOwner]
    ++ qcellOwnerBlanket CellImpl.T

def new_tl_owner_type_traits : List CellTrait :=
  [CellTrait.IsGTUniAccess, CellTrait.IsTLUniAccess, CellTrait.IsTLUniOwner]
    ++ qcellOwnerBlanket CellImpl.TL

def new_t_cell_type_traits : List CellTrait :=
  [CellTrait.IsGTUniAccess, CellTrait.IsTUniAccess, CellTrait.IsTUniCell]
    ++ qcellCellBlanket CellImpl.T

def new_tl_cell_type_traits : List CellTrait :=
  [CellTrait.IsGTUniAccess, CellTrait.IsTLUniAccess, CellTrait.IsTLUniCell]
    ++ qcellCellBlanket CellImpl.TL

/- new_t_group and new_tl_group (lib.rs 1523-1683) expand to exactly
one marker, one owner and one cell declaration each; the trait lists of
every type any families-style macro can produce are therefore: -/
def families_all_trait_lists : List (List CellTrait) :=
  [new_t_marker_type_traits, new_tl_marker_type_traits,
   new_t_owner_type_traits, new_tl_owner_type_traits,
   new_t_cell_type_traits, new_tl_cell_type_traits]

/- The hand-expanded uniform group module of src/expanded.rs
(example_macro_results_source_code::example_uni_grp, lines 6-125).
Its new_private_owner raises uni_owner_unavailable_msg (expanded.rs
line 67); everything else mirrors the macro output. -/
def expanded_example_uni_grp_api : GroupApi :=
  { has_private_access := false
    has_uniform_access := true
    has_public_access := false
    new_private_owner := AccessorOutcome.panics uni_owner_unavailable_msg
    new_uniform_owner := AccessorOutcome.success
    new_public_owner := AccessorOutcome.panics pub_owner_unavailable_msg
    new_private_cell := AccessorOutcome.panics uni_cell_unavailable_msg
    new_uniform_cell := AccessorOutcome.success
    new_public_cell := AccessorOutcome.panics pub_cell_unavailable_msg }

/- Cluster / nesting resolver (def_cells line splitter, @line stage 0
and @check_cluster; lib.rs 2452-2508). -/

/- The eight declaration keywords of the category grammar. -/
inductive GrpKeyword
| TCellUniGrp
| TCellAccGrp
| TCellPubGrp
| TCellPvtGrp
| TLCellUniGrp
| TLCellAccGrp
| TLCellPubGrp
| TLCellPvtGrp
deriving DecidableEq, Repr

def keywordKind : GrpKeyword → CellImpl
| GrpKeyword.TCellUniGrp => CellImpl.T
| GrpKeyword.TCellAccGrp => CellImpl.T
| GrpKeyword.TCellPubGrp => CellImpl.T
| GrpKeyword.TCellPvtGrp => CellImpl.T
| GrpKeyword.TLCellUniGrp => CellImpl.TL
| GrpKeyword.TLCellAccGrp => CellImpl.TL
| GrpKeyword.TLCellPubGrp => CellImpl.TL
| GrpKeyword.TLCellPvtGrp => CellImpl.TL

def keywordCategory : GrpKeyword → GrpCategory
| GrpKeyword.TCellUniGrp => GrpCategory.UniGrp
| GrpKeyword.TCellAccGrp => GrpCategory.AccGrp
| GrpKeyword.TCellPubGrp => GrpCategory.PubGrp
| GrpKeyword.TCellPvtGrp => GrpCategory.PvtGrp
| GrpKeyword.TLCellUniGrp => GrpCategory.UniGrp
| GrpKeyword.TLCellAccGrp => GrpCategory.AccGrp
| GrpKeyword.TLCellPubGrp => GrpCategory.PubGrp
| GrpKeyword.TLCellPvtGrp => GrpCategory.PvtGrp

/- One declaration entry of the def_cells grammar: the macro pattern
makes the category suffix and the cluster extension each OPTIONAL, so a
name can carry a category (leaf), carry a nested block (branch), or
carry neither (bare). -/
mutual
inductive DeclEntry
| leaf (name : String) (c : GrpKeyword)
| branch (name : String) (children : DeclList)
| bare (name : String)
deriving DecidableEq, Repr
inductive DeclList
| nil
| cons (e : DeclEntry) (rest : DeclList)
deriving DecidableEq, Repr
end

/- The output namespace tree of expansion: group modules (carrying the
expanded API) inside nested namespaces. -/
inductive ModuleTree
| group (name : String) (k : CellImpl) (c : GrpCategory)
| ns (name : String) (children : List ModuleTree)

/- The @check_cluster arm, lib.rs 2452-2474: for each entry it emits an
@line invocation when the entry has a category, a wrapper module with a
recursive @check_cluster when it has an extension, and — because both
expansions are optional repetitions — NOTHING when the entry has
neither suffix. -/
mutual
def check_cluster : DeclEntry → List ModuleTree
| DeclEntry.leaf n c => [ModuleTree.group n (keywordKind c) (keywordCategory c)]
| DeclEntry.branch n ch => [ModuleTree.ns n (check_cluster_list ch)]
| DeclEntry.bare _ => []
def check_cluster_list : DeclList → List ModuleTree
| DeclList.nil => []
| DeclList.cons e rest => check_cluster e ++ check_cluster_list rest
end

/- A top-level def_cells line after the line splitter (lib.rs
2488-2507): the splitter forwards the header with whichever suffix it
has to @line.  A leaf matches one of the eight category arms, a branch
matches the cluster stage-0 arm, and a header with neither suffix
matches NO @line arm, so expansion is rejected (none = the macro fails
to match, before any output module is produced). -/
def def_cells_top : DeclEntry → Option (List ModuleTree)
| DeclEntry.leaf n c => some [ModuleTree.group n (keywordKind c) (keywordCategory c)]
| DeclEntry.branch n ch => some [ModuleTree.ns n (check_cluster_list ch)]
| DeclEntry.bare _ => none

/- Scope-access compiler (the c_scp macro, lib.rs 437-882). -/

inductive Mutability
| immut
| ismut
deriving DecidableEq, Repr

/- The four owner-source shapes of the c_scp entry arms (lib.rs
720-881): auto (use _), borrowed variable (use & src / use &mut src),
self lookup (use [self]) and explicit owner type path. -/
inductive OwnerSource
| fromPath
| fromAuto
| fromSelf
| fromScpSrc (m : Mutability)
deriving DecidableEq, Repr

/- The binding-pattern shapes of the @reorganize_body1 arms (lib.rs
480-718).  bare is the armless cell selection ((cell) or (mut cell));
the other constructors carry the bound identifier.  The surface forms
x and &x both parse to intBorrow immut. -/
inductive BindingPattern
| bare (m : Mutability)
| intBorrow (m : Mutability) (name : String)
| intDeref (m : Mutability) (name : String)
| extBorrow (m : Mutability) (name : String)
| extDeref (m : Mutability) (name : String)
| extHardBorrow (m : Mutability) (name : String)
deriving DecidableEq, Repr

inductive AccessOp
| ro
| rw
deriving DecidableEq, Repr

/- The statements a compiled scope block consists of.  The acquisition
statement is the output of @handle_sources_right; the remaining
constructors are the binding statements of the @reorganize_body1 arms
(let-bind a reference, let-bind a dereferenced copy, or assign into an
already-existing outer variable, each through one ro or rw access). -/
inductive Stmt
| acquireNew (src : OwnerSource) (m : Mutability)
| acquireBorrow (m : Mutability)
| bindNewBorrow (name : String) (op : AccessOp)
| bindNewCopy (name : String) (op : AccessOp)
| assignOuterBorrow (name : String) (op : AccessOp)
| assignOuterCopy (name : String) (op : AccessOp)
| assignOuterHard (name : String) (op : AccessOp)
deriving DecidableEq, Repr

/- @handle_sources_right, lib.rs 466-477.  The two borrowed-variable
arms match first and IGNORE the op-props tuple entirely — the reference
mutability is the one written in the source expression.  The catch-all
arm wraps the constructed owner in a reference whose mutability comes
from the op props (@handle_op_props, lib.rs 438-447; only the third
token of the props tuple, the mutability, is ever inspected). -/
def handle_sources_right (src : OwnerSource) (props_mut : Mutability) : Stmt :=
  match src with
  | OwnerSource.fromScpSrc m => Stmt.acquireBorrow m
  | s => Stmt.acquireNew s props_mut

/- @reorganize_body1, lib.rs 480-718, arm by arm (the props words
internal/external and borrow/deref are inert downstream; only the
mutability token matters, so only it is passed on). -/
def reorganize_body1 (src : OwnerSource) : BindingPattern → List Stmt
| BindingPattern.bare m =>
    [handle_sources_right src m]
| BindingPattern.extDeref Mutability.ismut n =>
    [handle_sources_right src Mutability.ismut, Stmt.assignOuterCopy n AccessOp.rw]
| BindingPattern.extHardBorrow Mutability.ismut n =>
    [handle_sources_right src Mutability.ismut, Stmt.assignOuterHard n AccessOp.rw]
| BindingPattern.extBorrow Mutability.ismut n =>
    [handle_sources_right src Mutability.ismut, Stmt.assignOuterBorrow n AccessOp.rw]
| BindingPattern.extHardBorrow Mutability.immut n =>
    [handle_sources_right src Mutability.immut, Stmt.assignOuterHard n AccessOp.ro]
| BindingPattern.extDeref Mutability.immut n =>
    [handle_sources_right src Mutability.immut, Stmt.assignOuterCopy n AccessOp.ro]
| BindingPattern.intDeref Mutability.ismut n =>
    [handle_sources_right src Mutability.ismut, Stmt.bindNewCopy n AccessOp.rw]
| BindingPattern.extBorrow Mutability.immut n =>
    [handle_sources_right src Mutability.immut, Stmt.assignOuterBorrow n AccessOp.ro]
| BindingPattern.intDeref Mutability.immut n =>
    [handle_sources_right src Mutability.immut, Stmt.bindNewCopy n AccessOp.ro]
| BindingPattern.intBorrow Mutability.ismut n =>
    [handle_sources_right src Mutability.ismut, Stmt.bindNewBorrow n AccessOp.rw]
| BindingPattern.intBorrow Mutability.immut n =>
    [handle_sources_right src Mutability.immut, Stmt.bindNewBorrow n AccessOp.ro]

/- Number of cell accesses (ro or rw invocations) a statement performs. -/
def stmtAccessCount : Stmt → Nat
| Stmt.acquireNew _ _ => 0
| Stmt.acquireBorrow _ => 0
| Stmt.bindNewBorrow _ _ => 1
| Stmt.bindNewCopy _ _ => 1
| Stmt.assignOuterBorrow _ _ => 1
| Stmt.assignOuterCopy _ _ => 1
| Stmt.assignOuterHard _ _ => 1

def blockAccessCount (b : List Stmt) : Nat :=
  (b.map stmtAccessCount).sum

def isAcquireStmt : Stmt → Bool
| Stmt.acquireNew _ _ => true
| Stmt.acquireBorrow _ => true
| _ => false

def blockAcquireCount (b : List Stmt) : Nat :=
  b.countP isAcquireStmt

/- The mutability of the owner acquisition at the head of a compiled
block, and the cell access operation the block performs (if any). -/
def acquisitionMode : List Stmt → Option Mutability
| Stmt.acquireNew _ m :: _ => some m
| Stmt.acquireBorrow m :: _ => some m
| _ => none

def stmtAccessOp : Stmt → Option AccessOp
| Stmt.acquireNew _ _ => none
| Stmt.acquireBorrow _ => none
| Stmt.bindNewBorrow _ op => some op
| Stmt.bindNewCopy _ op => some op
| Stmt.assignOuterBorrow _ op => some op
| Stmt.assignOuterCopy _ op => some op
| Stmt.assignOuterHard _ op => some op

def blockAccessOp (b : List Stmt) : Option AccessOp :=
  (b.filterMap stmtAccessOp).head?

def isBareSelection : BindingPattern → Bool
| BindingPattern.bare _ => true
| _ => false

/- The mutability marker each binding-pattern shape carries. -/
def patternMut : BindingPattern → Mutability
| BindingPattern.bare m => m
| BindingPattern.intBorrow m _ => m
| BindingPattern.intDeref m _ => m
| BindingPattern.extBorrow m _ => m
| BindingPattern.extDeref m _ => m
| BindingPattern.extHardBorrow m _ => m

/- Runtime semantics of a compiled scope block over one protected cell
holding an integer.  A binding either holds a dereferenced copy of the
cell contents (the deref patterns copy BEFORE binding, and the let is
mut exactly for the rw form) or a reference into the cell (writable
exactly for the rw form). -/
inductive BoundValue
| copied (writable : Bool) (v : Int)
| cellRef (writable : Bool)
deriving DecidableEq, Repr

structure RunState where
  cell : Int
  locals : List (String × BoundValue)
deriving DecidableEq, Repr

def lookupLocal : List (String × BoundValue) → String → Option BoundValue
| [], _ => none
| (k, v) :: rest, n => if k = n then some v else lookupLocal rest n

/- Effect of one compiled statement on the run state.  ro hands out a
read-only view of the cell contents, rw a writable one; the deref
statements copy the current contents out of the cell at that moment. -/
def execStmt (st : RunState) : Stmt → RunState
| Stmt.acquireNew _ _ => st
| Stmt.acquireBorrow _ => st
| Stmt.bindNewBorrow n op =>
    { st with locals := (n, BoundValue.cellRef (op == AccessOp.rw)) :: st.locals }
| Stmt.bindNewCopy n op =>
    { st with locals := (n, BoundValue.copied (op == AccessOp.rw) st.cell) :: st.locals }
| Stmt.assignOuterBorrow n op =>
    { st with locals := (n, BoundValue.cellRef (op == AccessOp.rw)) :: st.locals }
| Stmt.assignOuterCopy n _ =>
    { st with locals := (n, BoundValue.copied true st.cell) :: st.locals }
| Stmt.assignOuterHard n op =>
    { st with locals := (n, BoundValue.cellRef (op == AccessOp.rw)) :: st.locals }

/- The caller-supplied trailing statement inside the block: either
nothing, an increment of a by-value binding (x += 1), or an increment
through a reference binding (*x += 1).  Shapes the host type system
rejects evaluate to none. -/
inductive Trailing
| skip
| incrVar (name : String)
| incrDeref (name : String)
deriving DecidableEq, Repr

def execTrailing (st : RunState) : Trailing → Option RunState
| Trailing.skip => some st
| Trailing.incrVar n =>
    match lookupLocal st.locals n with
    | some (BoundValue.copied true v) =>
        some { st with locals := (n, BoundValue.copied true (v + 1)) :: st.locals }
    | _ => none
| Trailing.incrDeref n =>
    match lookupLocal st.locals n with
    | some (BoundValue.cellRef true) => some { st with cell := st.cell + 1 }
    | _ => none

/- The c_scp entry arm for an auto-inferred owner (use _ => ...,
lib.rs 736-751): reorganize the body with the @from_auto header, then
run the caller-supplied trailing block. -/
def c_scp_use_auto (p : BindingPattern) (t : Trailing) (initCell : Int) : Option RunState :=
  execTrailing ((reorganize_body1 OwnerSource.fromAuto p).foldl execStmt ⟨initCell, []⟩) t

/- Owner lifetime semantics of a compiled block.  Owners are tracked by
identity: the block either borrows the pre-existing owner of the
calling scope or constructs a fresh one, and everything it constructs
is dropped when the block ends (constructedIds); borrowing allocates
nothing and drops nothing. -/
structure BlockOwnerResult where
  usedOwner : Nat
  constructedIds : List Nat
  aliveAfter : List Nat
  freshAfter : Nat
deriving DecidableEq, Repr

def runBlockOwners (outerOwner : Nat) (alive : List Nat) (fresh : Nat) :
    List Stmt → Option BlockOwnerResult
| Stmt.acquireBorrow _ :: _ => some ⟨outerOwner, [], alive, fresh⟩
| Stmt.acquireNew _ _ :: _ => some ⟨fresh, [fresh], alive, fresh + 1⟩
| _ => none

/- Concrete names used by the closed test theorems below. -/
def xName : String := "x"
def fooName : String := "foo"
def topName : String := "top"

/- Helper: a block compiled from a borrowed-variable owner source only
borrows the calling scope's owner — regardless of the binding pattern. -/
lemma borrowed_source_block_owners (m : Mutability) (p : BindingPattern)
    (o : Nat) (alive : List Nat) (fresh : Nat) :
    runBlockOwners o alive fresh (reorganize_body1 (OwnerSource.fromScpSrc m) p)
      = some ⟨o, [], alive, fresh⟩ := by
  rcases p with mm | ⟨mm, n⟩ | ⟨mm, n⟩ | ⟨mm, n⟩ | ⟨mm, n⟩ | ⟨mm, n⟩ <;>
    cases mm <;> rfl

/-- C3: for every (implementation kind, access category) pair, the
expanded group's has_private_access / has_uniform_access /
has_public_access triple equals exactly the triple determined by the
category: Uniform (false, true, false), Private (true, false, false),
Public (false, false, true), Access (true, false, true). -/
theorem C3_supports_triple_matches_category :
    ∀ (k : CellImpl) (c : GrpCategory),
      ((def_cells_line_api k c).has_private_access,
       (def_cells_line_api k c).has_uniform_access,
       (def_cells_line_api k c).has_public_access)
      = (match c with
         | GrpCategory.UniGrp => (false, true, false)
         | GrpCategory.PvtGrp => (true, false, false)
         | GrpCategory.PubGrp => (false, false, true)
         | GrpCategory.AccGrp => (true, false, true)) := by
  intro k c
  cases k <;> cases c <;> rfl

/-- C4: for every Marker, Owner and Cell type produced by a group
expansion, the static accessors get_cell_impl, get_cell_role and
get_access_level resolve uniquely to the declared implementation kind,
the type's role and the declared access level (for an Access-category
group, the sub-triple's own level), and the instance-level accessors
get_self_cell_impl, get_self_cell_role and get_self_access_level
return the same values as the static ones. -/
theorem C4_introspection_matches_declaration :
    ∀ (k : CellImpl) (c : GrpCategory),
      (def_cells_line_types k c).all introspectionConsistent = true := by
  intro k c
  cases k <;> cases c <;> decide

/-- C2: in every expanded group, every accessor whose access level the
category does not support is a deterministic hard failure (never a
silent no-op) — but the message does not always state the requested
access level: the Uniform-category group's new_private_cell is raised
with the uniform-cell message even though a private cell was requested,
and that message differs from the private-cell message used elsewhere. -/
theorem C2_unsupported_accessors_fail_but_message_wrong :
    (∀ (k : CellImpl) (c : GrpCategory),
        unsupportedAccessorsAllFail (def_cells_line_api k c) = true)
    ∧ (def_cells_line_api CellImpl.TL GrpCategory.UniGrp).new_private_cell
        = AccessorOutcome.panics uni_cell_unavailable_msg
    ∧ uni_cell_unavailable_msg ≠ pvt_cell_unavailable_msg := by
  refine ⟨?_, rfl, ?_⟩
  · intro k c
    cases k <;> cases c <;> rfl
  · decide

/-- C9: the hand-expanded uniform group of src/expanded.rs is NOT
accessor-for-accessor equivalent to the def_cells output for a
TLCellUniGrp declaration: its new_private_owner is raised with the
uniform-owner message while the macro emits the private-owner message;
the two modules agree on every other accessor. -/
theorem C9_expanded_module_differs_at_new_private_owner :
    expanded_example_uni_grp_api.new_private_owner
      = AccessorOutcome.panics uni_owner_unavailable_msg
    ∧ (def_cells_line_api CellImpl.TL GrpCategory.UniGrp).new_private_owner
      = AccessorOutcome.panics pvt_owner_unavailable_msg
    ∧ expanded_example_uni_grp_api ≠ def_cells_line_api CellImpl.TL GrpCategory.UniGrp
    ∧ { expanded_example_uni_grp_api with
        new_private_owner := AccessorOutcome.panics pvt_owner_unavailable_msg }
      = def_cells_line_api CellImpl.TL GrpCategory.UniGrp := by
  refine ⟨rfl, rfl, ?_, rfl⟩
  decide

/-- C10: every Marker, Owner and Cell type produced by the
families-style declaration macros carries exactly the Uniform access
level (both the static and the instance-level access introspection
resolve uniquely to Uniform): no families-style declaration can produce
a Private- or Public-tagged type. -/
theorem C10_families_types_all_uniform :
    families_all_trait_lists.all
      (fun ts =>
        ts.filterMap accessLevelOfTrait == [CellAccessLevels.Uniform]
        && ts.filterMap selfAccessLevelOfTrait == [CellAccessLevels.Uniform])
      = true := by
  decide

/-- C5 counterexample: a block compiled from the bare cell-selection
pattern performs ZERO ro/rw invocations (only the owner is acquired),
refuting the claim that every compiled block performs exactly one. -/
theorem C5_counterexample_bare_selection :
    blockAccessCount
      (reorganize_body1 OwnerSource.fromAuto (BindingPattern.bare Mutability.immut)) = 0
    ∧ blockAccessCount
        (reorganize_body1 OwnerSource.fromAuto (BindingPattern.bare Mutability.immut)) ≠ 1 := by
  decide

/-- C5 (amended): every compiled block contains exactly one owner
acquisition, and performs exactly one ro/rw invocation when the binding
pattern is a binding form — and zero when it is the bare cell-selection
form. -/
theorem C5_one_access_unless_bare :
    ∀ (src : OwnerSource) (p : BindingPattern),
      blockAccessCount (reorganize_body1 src p)
        = (if isBareSelection p then 0 else 1)
      ∧ blockAcquireCount (reorganize_body1 src p) = 1 := by
  intro src p
  rcases p with mm | ⟨mm, n⟩ | ⟨mm, n⟩ | ⟨mm, n⟩ | ⟨mm, n⟩ | ⟨mm, n⟩ <;>
    cases mm <;> cases src <;> exact ⟨rfl, rfl⟩

/-- C6 counterexample: with the borrowed-immutable owner source and a
mutable binding, the compiled block acquires the owner through an
IMMUTABLE reference — the mutable qualifier does not force a mutable
acquisition for borrowed owner sources. -/
theorem C6_counterexample_borrowed_source_ignores_mut :
    acquisitionMode
      (reorganize_body1 (OwnerSource.fromScpSrc Mutability.immut)
        (BindingPattern.intBorrow Mutability.ismut xName))
      = some Mutability.immut
    ∧ acquisitionMode
        (reorganize_body1 (OwnerSource.fromScpSrc Mutability.immut)
          (BindingPattern.intBorrow Mutability.ismut xName))
      ≠ some Mutability.ismut := by
  decide

/-- C6 (amended): a pattern without a mutability marker compiles to an
immutable internal borrow bound to a new block-scoped variable through
ro; a mutable qualifier always selects rw; and the acquisition
reference is mutable exactly per the pattern's marker for the
explicit-type, auto and self owner sources, while a borrowed-variable
source always keeps its own reference marker. -/
theorem C6_mutability_rules :
    ∀ (src : OwnerSource) (p : BindingPattern) (n : String),
      acquisitionMode (reorganize_body1 src p)
        = some (match src with
                | OwnerSource.fromScpSrc m => m
                | _ => patternMut p)
      ∧ blockAccessOp (reorganize_body1 src p)
        = (if isBareSelection p then none
           else some (match patternMut p with
                      | Mutability.ismut => AccessOp.rw
                      | Mutability.immut => AccessOp.ro))
      ∧ reorganize_body1 src (BindingPattern.intBorrow Mutability.immut n)
        = [handle_sources_right src Mutability.immut,
           Stmt.bindNewBorrow n AccessOp.ro] := by
  intro src p n
  rcases p with mm | ⟨mm, nn⟩ | ⟨mm, nn⟩ | ⟨mm, nn⟩ | ⟨mm, nn⟩ | ⟨mm, nn⟩ <;>
    cases mm <;> cases src <;> exact ⟨rfl, rfl, rfl⟩

/-- C7: a block compiled from the borrowed-variable owner source (for
either reference mutability and any binding pattern) uses the calling
scope's pre-existing owner, constructs no new owner, and releases
nothing when the scope ends; hence two consecutive such blocks use the
very same owner. -/
theorem C7_borrowed_owner_reused_not_released :
    ∀ (m m2 : Mutability) (p p2 : BindingPattern)
      (o : Nat) (alive : List Nat) (fresh : Nat),
      runBlockOwners o alive fresh
          (reorganize_body1 (OwnerSource.fromScpSrc m) p)
        = some ⟨o, [], alive, fresh⟩
      ∧ runBlockOwners o alive fresh
          (reorganize_body1 (OwnerSource.fromScpSrc m2) p2)
        = some ⟨o, [], alive, fresh⟩ := by
  intro m m2 p p2 o alive fresh
  exact ⟨borrowed_source_block_owners m p o alive fresh,
         borrowed_source_block_owners m2 p2 o alive fresh⟩

/-- C1 counterexample: for a Uniform cell holding 5, the auto-owner
expression with a mutable internal dereference binding x copies the
value out of the cell before binding, so executing x += 1 inside the
block leaves the cell holding 5 — not 6 — at the subsequent read-only
access. -/
theorem C1_counterexample_mut_deref_copies :
    (c_scp_use_auto (BindingPattern.intDeref Mutability.ismut xName)
        (Trailing.incrVar xName) 5).map RunState.cell = some 5
    ∧ (c_scp_use_auto (BindingPattern.intDeref Mutability.ismut xName)
          (Trailing.incrVar xName) 5).map RunState.cell ≠ some 6 := by
  decide

/-- C1 (amended): with the mutable internal dereference binding the
block-local x ends at 6 but the cell still holds 5 after the block; the
cell ends at 6 exactly when the mutable internal BORROW binding is used
and the increment goes through the reference. -/
theorem C1_deref_local_six_cell_five :
    (c_scp_use_auto (BindingPattern.intDeref Mutability.ismut xName)
        (Trailing.incrVar xName) 5).map RunState.cell = some 5
    ∧ ((c_scp_use_auto (BindingPattern.intDeref Mutability.ismut xName)
          (Trailing.incrVar xName) 5).bind
        (fun st => lookupLocal st.locals xName))
      = some (BoundValue.copied true 6)
    ∧ (c_scp_use_auto (BindingPattern.intBorrow Mutability.ismut xName)
        (Trailing.incrDeref xName) 5).map RunState.cell = some 6 := by
  decide

/-- C8 counterexample: an entry with neither a category suffix nor a
cluster extension, nested inside a cluster block, is NOT rejected —
expansion succeeds and silently produces an empty namespace. -/
theorem C8_counterexample_nested_bare_entry :
    def_cells_top
        (DeclEntry.branch topName
          (DeclList.cons (DeclEntry.bare fooName) DeclList.nil))
      = some [ModuleTree.ns topName []]
    ∧ def_cells_top
        (DeclEntry.branch topName
          (DeclList.cons (DeclEntry.bare fooName) DeclList.nil))
      ≠ none := by
  refine ⟨rfl, ?_⟩
  intro h
  exact Option.noConfusion h

/-- C8 (amended): a TOP-LEVEL declaration line with neither suffix is
rejected at expansion time (no def_cells rule matches, before any
output module is produced), while an entry with neither suffix nested
inside a cluster block expands to nothing at all; leaf and branch
entries expand as usual. -/
theorem C8_bare_top_rejected_nested_dropped :
    ∀ (n : String) (ch : DeclList) (c : GrpKeyword),
      def_cells_top (DeclEntry.bare n) = none
      ∧ check_cluster (DeclEntry.bare n) = []
      ∧ def_cells_top (DeclEntry.branch n ch)
          = some [ModuleTree.ns n (check_cluster_list ch)]
      ∧ def_cells_top (DeclEntry.leaf n c)
          = some [ModuleTree.group n (keywordKind c) (keywordCategory c)] := by
  intro n ch c
  exact ⟨rfl, rfl, rfl, rfl⟩

end CellWrappers
